import Mathlib

/-!
# Verification of the simpeg-drivers options/validation layer

This development embeds the UI-description assets bundled with the
`simpeg-drivers` repository (the `*.ui.json` files under
`simpeg_drivers-assets/uijson/`) and the options-validation layer declared in
`src/uml/new_gravity_options.puml`, and proves the stated contracts about
bounds enforcement, channel requirements, default self-consistency, CPU-count
defaulting, mesh-rotation rejection, active-cells sourcing, uncertainty
sign constraints, UI-file round-tripping, sweep generation and the
enable/disable dependency graph.

The repository snapshot ships the UI-description assets and the class
diagram of the options hierarchy, but not the bodies of the pydantic
validators themselves; those validators are therefore modelled from the
specification (and from their declared names and signatures in the class
diagram), as marked on each definition.
-/

set_option autoImplicit false

deriving instance DecidableEq for Except

namespace SimpegDrivers

/-- A default value carried by a UI-description parameter: a number, a
boolean, a string (possibly empty, standing for an unset reference), as in
the JSON assets. -/
inductive UIValue where
  | num (q : ℚ)
  | bool (b : Bool)
  | str (s : String)
deriving DecidableEq, Repr

/-- One parameter entry of a UI-description file, as stored in the bundled
`*.ui.json` assets: its key, default `value`, optional numeric bounds
`min`/`max`, the `optional` and `enabled` flags (`enabled` defaults to
`true` when the key is absent in the file), and the `dependency` /
`dependencyType` pair driving the enable/disable graph. -/
structure UIParam where
  name : String
  value : UIValue
  min : Option ℚ := none
  max : Option ℚ := none
  optional : Bool := false
  enabled : Bool := true
  dependency : Option String := none
  dependencyType : String := "enabled"
deriving DecidableEq, Repr

/-- A bundled UI-description file: its `forward_only` flag and its parameter
entries, in file order. -/
structure UIFile where
  fileName : String
  forward_only : Bool
  fields : List UIParam
deriving DecidableEq, Repr

/-- The parameter entries of `direct_current_batch2d_forward.ui.json`, transcribed from the asset. -/
def direct_current_batch2d_forward : UIFile :=
  ⟨"direct_current_batch2d_forward.ui.json", true, [
  { name := "data_object", value := .str "" },
  { name := "line_object", value := .str "" },
  { name := "u_cell_size", value := .num 25, min := some 0 },
  { name := "v_cell_size", value := .num 25, min := some 0 },
  { name := "depth_core", value := .num 500, min := some 0 },
  { name := "horizontal_padding", value := .num 1000, min := some 0 },
  { name := "vertical_padding", value := .num 1000, min := some 0 },
  { name := "expansion_factor", value := .num (mkRat 11 10) },
  { name := "mesh", value := .str "", optional := true, enabled := false },
  { name := "model_type", value := .str "Conductivity (S/m)" },
  { name := "starting_model", value := .num (mkRat 1 1000) },
  { name := "topography_object", value := .str "", optional := true },
  { name := "topography", value := .str "", optional := true, enabled := false, dependency := some "topography_object" },
  { name := "active_model", value := .str "", enabled := false, dependency := some "topography_object", dependencyType := "disabled" },
  { name := "parallelized", value := .bool true },
  { name := "n_cpu", value := .num 1, min := some 1, optional := true, enabled := false, dependency := some "parallelized" },
  { name := "max_chunk_size", value := .num 128, min := some 0, optional := true },
  { name := "chunk_by_rows", value := .bool true },
  { name := "out_group", value := .str "", optional := true, enabled := false },
  { name := "generate_sweep", value := .bool false },
  { name := "files_only", value := .bool false },
  { name := "cleanup", value := .bool false }
  ]⟩

/-- The parameter entries of `fem_forward.ui.json`, transcribed from the asset. -/
def fem_forward : UIFile :=
  ⟨"fem_forward.ui.json", true, [
  { name := "data_object", value := .str "" },
  { name := "z_real_channel_bool", value := .bool true },
  { name := "z_imag_channel_bool", value := .bool true },
  { name := "mesh", value := .str "", optional := true, enabled := false },
  { name := "model_type", value := .str "Conductivity (S/m)" },
  { name := "starting_model", value := .num (mkRat 1 1000) },
  { name := "topography_object", value := .str "", optional := true },
  { name := "topography", value := .str "", optional := true, enabled := false, dependency := some "topography_object" },
  { name := "active_model", value := .str "", enabled := false, dependency := some "topography_object", dependencyType := "disabled" },
  { name := "parallelized", value := .bool true },
  { name := "n_cpu", value := .num 1, min := some 1, optional := true, enabled := false, dependency := some "parallelized" },
  { name := "tile_spatial", value := .num 1, min := some 1, max := some 1000 },
  { name := "max_chunk_size", value := .num 128, min := some 0, optional := true },
  { name := "chunk_by_rows", value := .bool true },
  { name := "out_group", value := .str "", optional := true, enabled := false },
  { name := "generate_sweep", value := .bool false }
  ]⟩

/-- The parameter entries of `gravity_forward.ui.json`, transcribed from the asset. -/
def gravity_forward : UIFile :=
  ⟨"gravity_forward.ui.json", true, [
  { name := "topography_object", value := .str "" },
  { name := "topography", value := .str "", optional := true, enabled := false },
  { name := "data_object", value := .str "" },
  { name := "z_from_topo", value := .bool false },
  { name := "receivers_radar_drape", value := .str "", optional := true, enabled := false },
  { name := "receivers_offset_z", value := .num 0, optional := true, enabled := false },
  { name := "gz_channel_bool", value := .bool true },
  { name := "gx_channel_bool", value := .bool false },
  { name := "gy_channel_bool", value := .bool false },
  { name := "guv_channel_bool", value := .bool false },
  { name := "gxy_channel_bool", value := .bool false },
  { name := "gxx_channel_bool", value := .bool false },
  { name := "gyy_channel_bool", value := .bool false },
  { name := "gzz_channel_bool", value := .bool false },
  { name := "gxz_channel_bool", value := .bool false },
  { name := "gyz_channel_bool", value := .bool false },
  { name := "mesh", value := .str "" },
  { name := "starting_model", value := .num (mkRat 1 1000) },
  { name := "parallelized", value := .bool true },
  { name := "n_cpu", value := .num 1, min := some 1, optional := true, enabled := false, dependency := some "parallelized" },
  { name := "tile_spatial", value := .num 1, min := some 1, max := some 1000 },
  { name := "max_chunk_size", value := .num 128, min := some 0, optional := true },
  { name := "chunk_by_rows", value := .bool true },
  { name := "out_group", value := .str "", optional := true, enabled := false },
  { name := "generate_sweep", value := .bool false }
  ]⟩

/-- The parameter entries of `induced_polarization_2d_inversion.ui.json`, transcribed from the asset. -/
def induced_polarization_2d_inversion : UIFile :=
  ⟨"induced_polarization_2d_inversion.ui.json", false, [
  { name := "data_object", value := .str "" },
  { name := "line_object", value := .str "" },
  { name := "line_id", value := .num 1, min := some 1 },
  { name := "receivers_radar_drape", value := .str "", optional := true, enabled := false },
  { name := "receivers_offset_z", value := .num 0, optional := true, enabled := false },
  { name := "chargeability_channel", value := .str "" },
  { name := "chargeability_uncertainty", value := .num 1 },
  { name := "mesh", value := .str "", optional := true, enabled := false },
  { name := "u_cell_size", value := .num 25, min := some 0, dependency := some "mesh", dependencyType := "disabled" },
  { name := "v_cell_size", value := .num 25, min := some 0, dependency := some "mesh", dependencyType := "disabled" },
  { name := "depth_core", value := .num 500, min := some 0, dependency := some "mesh", dependencyType := "disabled" },
  { name := "horizontal_padding", value := .num 1000, min := some 0, dependency := some "mesh", dependencyType := "disabled" },
  { name := "vertical_padding", value := .num 1000, min := some 0, dependency := some "mesh", dependencyType := "disabled" },
  { name := "expansion_factor", value := .num (mkRat 11 10), dependency := some "mesh", dependencyType := "disabled" },
  { name := "model_type", value := .str "Conductivity (S/m)" },
  { name := "conductivity_model", value := .num (mkRat 1 1000) },
  { name := "starting_model", value := .num 0 },
  { name := "reference_model", value := .num 0, optional := true, enabled := false },
  { name := "lower_bound", value := .num 0, optional := true },
  { name := "upper_bound", value := .num 100, optional := true, enabled := false },
  { name := "topography_object", value := .str "", optional := true },
  { name := "topography", value := .str "", optional := true, enabled := false, dependency := some "topography_object" },
  { name := "active_model", value := .str "", enabled := false, dependency := some "topography_object", dependencyType := "disabled" },
  { name := "alpha_s", value := .num 1, min := some 0, dependency := some "reference_model" },
  { name := "length_scale_x", value := .num 1, min := some 0 },
  { name := "length_scale_z", value := .num 1, min := some 0 },
  { name := "s_norm", value := .num 0, min := some 0, max := some 2, dependency := some "reference_model" },
  { name := "x_norm", value := .num 2, min := some 0, max := some 2 },
  { name := "z_norm", value := .num 2, min := some 0, max := some 2 },
  { name := "gradient_type", value := .str "total" },
  { name := "max_irls_iterations", value := .num 25, min := some 0 },
  { name := "starting_chi_factor", value := .num 1 },
  { name := "beta_tol", value := .num (mkRat 1 2), min := some (mkRat 1 10000) },
  { name := "prctile", value := .num 95, min := some 5, max := some 100 },
  { name := "chi_factor", value := .num 1, min := some (mkRat 1 10), max := some 20 },
  { name := "auto_scale_misfits", value := .bool true },
  { name := "initial_beta_ratio", value := .num 100, min := some 0, optional := true },
  { name := "initial_beta", value := .num 1, min := some 0, optional := true, enabled := false, dependency := some "initial_beta_ratio", dependencyType := "disabled" },
  { name := "coolingFactor", value := .num 2, min := some (mkRat 11 10), max := some 100 },
  { name := "coolingRate", value := .num 2, min := some 1, max := some 10 },
  { name := "max_global_iterations", value := .num 50, min := some 1 },
  { name := "max_line_search_iterations", value := .num 20, min := some 1 },
  { name := "max_cg_iterations", value := .num 30, min := some 0 },
  { name := "tol_cg", value := .num (mkRat 1 10000), min := some 0 },
  { name := "f_min_change", value := .num (mkRat 1 100), min := some (mkRat 1 1000000) },
  { name := "sens_wts_threshold", value := .num (mkRat 1 1000), min := some 0, max := some 100 },
  { name := "every_iteration_bool", value := .bool true },
  { name := "save_sensitivities", value := .bool false },
  { name := "parallelized", value := .bool true },
  { name := "n_cpu", value := .num 1, min := some 1, optional := true, enabled := false, dependency := some "parallelized" },
  { name := "store_sensitivities", value := .str "ram" },
  { name := "max_chunk_size", value := .num 128, min := some 0, optional := true },
  { name := "chunk_by_rows", value := .bool true },
  { name := "out_group", value := .str "", optional := true, enabled := false },
  { name := "generate_sweep", value := .bool false }
  ]⟩

/-- The parameter entries of `induced_polarization_forward_2d.ui.json`, transcribed from the asset. -/
def induced_polarization_forward_2d : UIFile :=
  ⟨"induced_polarization_forward_2d.ui.json", true, [
  { name := "topography_object", value := .str "" },
  { name := "topography", value := .str "", optional := true, enabled := false },
  { name := "data_object", value := .str "" },
  { name := "z_from_topo", value := .bool true },
  { name := "line_object", value := .str "" },
  { name := "line_id", value := .num 1, min := some 1 },
  { name := "receivers_radar_drape", value := .str "", optional := true, enabled := false },
  { name := "receivers_offset_z", value := .num 0, optional := true, enabled := false },
  { name := "mesh", value := .str "", optional := true, enabled := false },
  { name := "u_cell_size", value := .num 25, min := some 0 },
  { name := "v_cell_size", value := .num 25, min := some 0 },
  { name := "depth_core", value := .num 500, min := some 0 },
  { name := "horizontal_padding", value := .num 1000, min := some 0 },
  { name := "vertical_padding", value := .num 1000, min := some 0 },
  { name := "expansion_factor", value := .num (mkRat 11 10) },
  { name := "conductivity_model", value := .num (mkRat 1 1000) },
  { name := "starting_model", value := .num 0 },
  { name := "parallelized", value := .bool true },
  { name := "n_cpu", value := .num 1, min := some 1, optional := true, enabled := false, dependency := some "parallelized" },
  { name := "max_chunk_size", value := .num 128, min := some 0, optional := true },
  { name := "chunk_by_rows", value := .bool true },
  { name := "out_group", value := .str "", optional := true, enabled := false },
  { name := "generate_sweep", value := .bool false }
  ]⟩

/-- The parameter entries of `joint_surveys_inversion.ui.json`, transcribed from the asset. -/
def joint_surveys_inversion : UIFile :=
  ⟨"joint_surveys_inversion.ui.json", false, [
  { name := "group_a", value := .str "" },
  { name := "group_a_multiplier", value := .num 1, min := some 0 },
  { name := "group_b", value := .str "" },
  { name := "group_b_multiplier", value := .num 1, min := some 0 },
  { name := "group_c", value := .str "", optional := true, enabled := false },
  { name := "group_c_multiplier", value := .num 1, min := some 0, dependency := some "group_c" },
  { name := "mesh", value := .str "", optional := true, enabled := false },
  { name := "model_type", value := .str "Conductivity (S/m)" },
  { name := "starting_model", value := .num (mkRat 1 10000), optional := true, enabled := false },
  { name := "reference_model", value := .num (mkRat 1 10000), optional := true, enabled := false },
  { name := "lower_bound", value := .num (-10), optional := true, enabled := false },
  { name := "upper_bound", value := .num 10, optional := true, enabled := false },
  { name := "topography_object", value := .str "", optional := true },
  { name := "topography", value := .str "", optional := true, enabled := false, dependency := some "topography_object" },
  { name := "active_model", value := .str "", enabled := false, dependency := some "topography_object", dependencyType := "disabled" },
  { name := "alpha_s", value := .num 1, min := some 0, dependency := some "reference_model" },
  { name := "length_scale_x", value := .num 1, min := some 0 },
  { name := "length_scale_y", value := .num 1, min := some 0 },
  { name := "length_scale_z", value := .num 1, min := some 0 },
  { name := "s_norm", value := .num 0, min := some 0, max := some 2, dependency := some "reference_model" },
  { name := "x_norm", value := .num 2, min := some 0, max := some 2 },
  { name := "y_norm", value := .num 2, min := some 0, max := some 2 },
  { name := "z_norm", value := .num 2, min := some 0, max := some 2 },
  { name := "gradient_type", value := .str "total" },
  { name := "max_irls_iterations", value := .num 25, min := some 0 },
  { name := "starting_chi_factor", value := .num 1 },
  { name := "beta_tol", value := .num (mkRat 1 2), min := some (mkRat 1 10000) },
  { name := "prctile", value := .num 95, min := some 5, max := some 100 },
  { name := "chi_factor", value := .num 1, min := some (mkRat 1 10), max := some 20 },
  { name := "auto_scale_misfits", value := .bool true },
  { name := "initial_beta_ratio", value := .num 100, min := some 0, optional := true },
  { name := "initial_beta", value := .num 1, min := some 0, optional := true, enabled := false, dependency := some "initial_beta_ratio", dependencyType := "disabled" },
  { name := "coolingFactor", value := .num 2, min := some (mkRat 11 10), max := some 100 },
  { name := "coolingRate", value := .num 1, min := some 1, max := some 10 },
  { name := "max_global_iterations", value := .num 50, min := some 1 },
  { name := "max_line_search_iterations", value := .num 20, min := some 1 },
  { name := "max_cg_iterations", value := .num 30, min := some 0 },
  { name := "tol_cg", value := .num (mkRat 1 10000), min := some 0 },
  { name := "f_min_change", value := .num (mkRat 1 100), min := some (mkRat 1 1000000) },
  { name := "sens_wts_threshold", value := .num (mkRat 1 1000), min := some 0, max := some 100 },
  { name := "every_iteration_bool", value := .bool true },
  { name := "parallelized", value := .bool true },
  { name := "n_cpu", value := .num 1, min := some 1, optional := true, enabled := false, dependency := some "parallelized" },
  { name := "store_sensitivities", value := .str "ram" },
  { name := "max_chunk_size", value := .num 128, min := some 0, optional := true },
  { name := "chunk_by_rows", value := .bool true },
  { name := "out_group", value := .str "", optional := true, enabled := false },
  { name := "generate_sweep", value := .bool false }
  ]⟩

/-- The parameter entries of `magnetic_scalar_forward.ui.json`, transcribed from the asset. -/
def magnetic_scalar_forward : UIFile :=
  ⟨"magnetic_scalar_forward.ui.json", true, [
  { name := "inducing_field_strength", value := .num 50000, min := some 0, max := some 100000 },
  { name := "inducing_field_inclination", value := .num 90, min := some (-90), max := some 90 },
  { name := "inducing_field_declination", value := .num 0, min := some (-180), max := some 180 },
  { name := "topography_object", value := .str "", optional := true },
  { name := "topography", value := .str "", optional := true, enabled := false, dependency := some "topography_object" },
  { name := "active_model", value := .str "", enabled := false, dependency := some "topography_object", dependencyType := "disabled" },
  { name := "data_object", value := .str "" },
  { name := "tmi_channel_bool", value := .bool true },
  { name := "bx_channel_bool", value := .bool false },
  { name := "by_channel_bool", value := .bool false },
  { name := "bz_channel_bool", value := .bool false },
  { name := "bxx_channel_bool", value := .bool false },
  { name := "bxy_channel_bool", value := .bool false },
  { name := "bxz_channel_bool", value := .bool false },
  { name := "byy_channel_bool", value := .bool false },
  { name := "byz_channel_bool", value := .bool false },
  { name := "bzz_channel_bool", value := .bool false },
  { name := "mesh", value := .str "", optional := true, enabled := false },
  { name := "starting_model", value := .num (mkRat 1 10000) },
  { name := "parallelized", value := .bool true },
  { name := "n_cpu", value := .num 1, min := some 1, optional := true, enabled := false, dependency := some "parallelized" },
  { name := "tile_spatial", value := .num 1, min := some 1, max := some 1000 },
  { name := "max_chunk_size", value := .num 128, min := some 0, optional := true },
  { name := "chunk_by_rows", value := .bool true },
  { name := "out_group", value := .str "", optional := true, enabled := false },
  { name := "generate_sweep", value := .bool false }
  ]⟩

/-- The parameter entries of `magnetic_scalar_inversion.ui.json`, transcribed from the asset. -/
def magnetic_scalar_inversion : UIFile :=
  ⟨"magnetic_scalar_inversion.ui.json", false, [
  { name := "inducing_field_strength", value := .num 50000, min := some 0, max := some 100000 },
  { name := "inducing_field_inclination", value := .num 90, min := some (-90), max := some 90 },
  { name := "inducing_field_declination", value := .num 0, min := some (-180), max := some 180 },
  { name := "data_object", value := .str "" },
  { name := "tmi_channel", value := .str "", optional := true },
  { name := "tmi_uncertainty", value := .num 1, dependency := some "tmi_channel" },
  { name := "bx_channel", value := .str "", optional := true, enabled := false },
  { name := "bx_uncertainty", value := .num 1, dependency := some "bx_channel" },
  { name := "by_channel", value := .str "", optional := true, enabled := false },
  { name := "by_uncertainty", value := .num 1, dependency := some "by_channel" },
  { name := "bz_channel", value := .str "", optional := true, enabled := false },
  { name := "bz_uncertainty", value := .num 1, dependency := some "bz_channel" },
  { name := "bxx_channel", value := .str "", optional := true, enabled := false },
  { name := "bxx_uncertainty", value := .num 1, dependency := some "bxx_channel" },
  { name := "bxy_channel", value := .str "", optional := true, enabled := false },
  { name := "bxy_uncertainty", value := .num 1, dependency := some "bxy_channel" },
  { name := "bxz_channel", value := .str "", optional := true, enabled := false },
  { name := "bxz_uncertainty", value := .num 1, dependency := some "bxz_channel" },
  { name := "byy_channel", value := .str "", optional := true, enabled := false },
  { name := "byy_uncertainty", value := .num 1, dependency := some "byy_channel" },
  { name := "byz_channel", value := .str "", optional := true, enabled := false },
  { name := "byz_uncertainty", value := .num 1, dependency := some "byz_channel" },
  { name := "bzz_channel", value := .str "", optional := true, enabled := false },
  { name := "bzz_uncertainty", value := .num 1, dependency := some "bzz_channel" },
  { name := "mesh", value := .str "", optional := true, enabled := false },
  { name := "starting_model", value := .num (mkRat 1 10000) },
  { name := "reference_model", value := .num 0, optional := true, enabled := false },
  { name := "lower_bound", value := .num 0, optional := true, enabled := false },
  { name := "upper_bound", value := .num 1, optional := true, enabled := false },
  { name := "topography_object", value := .str "", optional := true },
  { name := "topography", value := .str "", optional := true, enabled := false, dependency := some "topography_object" },
  { name := "active_model", value := .str "", enabled := false, dependency := some "topography_object", dependencyType := "disabled" },
  { name := "alpha_s", value := .num 1, min := some 0, dependency := some "reference_model" },
  { name := "length_scale_x", value := .num 1, min := some 0 },
  { name := "length_scale_y", value := .num 1, min := some 0 },
  { name := "length_scale_z", value := .num 1, min := some 0 },
  { name := "s_norm", value := .num 0, min := some 0, max := some 2, dependency := some "reference_model" },
  { name := "x_norm", value := .num 2, min := some 0, max := some 2 },
  { name := "y_norm", value := .num 2, min := some 0, max := some 2 },
  { name := "z_norm", value := .num 2, min := some 0, max := some 2 },
  { name := "gradient_type", value := .str "total" },
  { name := "max_irls_iterations", value := .num 25, min := some 0 },
  { name := "starting_chi_factor", value := .num 1 },
  { name := "beta_tol", value := .num (mkRat 1 2), min := some (mkRat 1 10000) },
  { name := "prctile", value := .num 95, min := some 5, max := some 100 },
  { name := "chi_factor", value := .num 1, min := some (mkRat 1 10), max := some 20 },
  { name := "auto_scale_misfits", value := .bool true },
  { name := "initial_beta_ratio", value := .num 100, min := some 0, optional := true },
  { name := "initial_beta", value := .num 1, min := some 0, optional := true, enabled := false, dependency := some "initial_beta_ratio", dependencyType := "disabled" },
  { name := "coolingFactor", value := .num 2, min := some (mkRat 11 10), max := some 100 },
  { name := "coolingRate", value := .num 1, min := some 1, max := some 10 },
  { name := "max_global_iterations", value := .num 50, min := some 1 },
  { name := "max_line_search_iterations", value := .num 20, min := some 1 },
  { name := "max_cg_iterations", value := .num 30, min := some 0 },
  { name := "tol_cg", value := .num (mkRat 1 10000), min := some 0 },
  { name := "f_min_change", value := .num (mkRat 1 100), min := some (mkRat 1 1000000) },
  { name := "sens_wts_threshold", value := .num (mkRat 1 1000), min := some 0, max := some 100 },
  { name := "every_iteration_bool", value := .bool false },
  { name := "save_sensitivities", value := .bool false },
  { name := "parallelized", value := .bool true },
  { name := "n_cpu", value := .num 1, min := some 1, optional := true, enabled := false, dependency := some "parallelized" },
  { name := "tile_spatial", value := .num 1, min := some 1, max := some 1000 },
  { name := "store_sensitivities", value := .str "ram" },
  { name := "max_chunk_size", value := .num 128, min := some 0, optional := true },
  { name := "chunk_by_rows", value := .bool true },
  { name := "out_group", value := .str "", optional := true, enabled := false },
  { name := "generate_sweep", value := .bool false }
  ]⟩

/-- The parameter entries of `magnetic_vector_forward.ui.json`, transcribed from the asset. -/
def magnetic_vector_forward : UIFile :=
  ⟨"magnetic_vector_forward.ui.json", true, [
  { name := "inducing_field_strength", value := .num 50000, min := some (mkRat 1 10), max := some 100000 },
  { name := "inducing_field_inclination", value := .num 90, min := some (-90), max := some 90 },
  { name := "inducing_field_declination", value := .num 0, min := some (-180), max := some 180 },
  { name := "topography_object", value := .str "" },
  { name := "topography", value := .str "", optional := true, enabled := false },
  { name := "data_object", value := .str "" },
  { name := "z_from_topo", value := .bool false },
  { name := "receivers_offset_z", value := .num 0, optional := true, enabled := false },
  { name := "receivers_radar_drape", value := .str "", optional := true, enabled := false },
  { name := "tmi_channel_bool", value := .bool true },
  { name := "bx_channel_bool", value := .bool false },
  { name := "by_channel_bool", value := .bool false },
  { name := "bz_channel_bool", value := .bool false },
  { name := "bxx_channel_bool", value := .bool false },
  { name := "bxy_channel_bool", value := .bool false },
  { name := "bxz_channel_bool", value := .bool false },
  { name := "byy_channel_bool", value := .bool false },
  { name := "byz_channel_bool", value := .bool false },
  { name := "bzz_channel_bool", value := .bool false },
  { name := "mesh", value := .str "" },
  { name := "starting_model", value := .num (mkRat 1 10000) },
  { name := "starting_inclination", value := .num 0, optional := true, enabled := false },
  { name := "starting_declination", value := .num 0, optional := true, enabled := false },
  { name := "parallelized", value := .bool true },
  { name := "n_cpu", value := .num 1, min := some 1, optional := true, enabled := false, dependency := some "parallelized" },
  { name := "tile_spatial", value := .num 1, min := some 1, max := some 1000 },
  { name := "max_chunk_size", value := .num 128, min := some 0, optional := true },
  { name := "chunk_by_rows", value := .bool true },
  { name := "out_group", value := .str "", optional := true, enabled := false },
  { name := "generate_sweep", value := .bool false }
  ]⟩

/-- The parameter entries of `src/unnamed/part_007 (SimPEG Joint Cross Gradient Inversion ui.json)`, transcribed from the asset. -/
def joint_cross_gradient_inversion : UIFile :=
  ⟨"part_007", false, [
  { name := "topography_object", value := .str "" },
  { name := "topography", value := .str "", optional := true, enabled := false },
  { name := "group_a", value := .str "" },
  { name := "group_a_multiplier", value := .num 1, min := some 0 },
  { name := "group_b", value := .str "" },
  { name := "group_b_multiplier", value := .num 1, min := some 0 },
  { name := "cross_gradient_weight_a_b", value := .num 1, min := some 0 },
  { name := "group_c", value := .str "", optional := true, enabled := false },
  { name := "group_c_multiplier", value := .num 1, min := some 0, dependency := some "group_c" },
  { name := "cross_gradient_weight_c_a", value := .num 1, min := some 0, dependency := some "group_c" },
  { name := "cross_gradient_weight_c_b", value := .num 1, min := some 0, dependency := some "group_c" },
  { name := "mesh", value := .str "", optional := true, enabled := false },
  { name := "chi_factor", value := .num 1, min := some (mkRat 1 10), max := some 20 },
  { name := "initial_beta_ratio", value := .num 10, min := some 0, optional := true },
  { name := "initial_beta", value := .num 1, min := some 0, optional := true, enabled := false, dependency := some "initial_beta_ratio", dependencyType := "disabled" },
  { name := "coolingRate", value := .num 1, min := some 1, max := some 10 },
  { name := "coolingFactor", value := .num 2, min := some (mkRat 11 10), max := some 100 },
  { name := "max_global_iterations", value := .num 100, min := some 1 },
  { name := "max_line_search_iterations", value := .num 20, min := some 1 },
  { name := "max_cg_iterations", value := .num 30, min := some 0 },
  { name := "tol_cg", value := .num (mkRat 1 10000), min := some 0 },
  { name := "alpha_s", value := .num 1, min := some 0, enabled := false },
  { name := "length_scale_x", value := .num 1, min := some 0, enabled := false },
  { name := "length_scale_y", value := .num 1, min := some 0, enabled := false },
  { name := "length_scale_z", value := .num 1, min := some 0, enabled := false },
  { name := "s_norm", value := .num 0, min := some 0, max := some 2, enabled := false },
  { name := "x_norm", value := .num 2, min := some 0, max := some 2, enabled := false },
  { name := "y_norm", value := .num 2, min := some 0, max := some 2, enabled := false },
  { name := "z_norm", value := .num 2, min := some 0, max := some 2, enabled := false },
  { name := "gradient_type", value := .str "total", enabled := false },
  { name := "max_irls_iterations", value := .num 25, min := some 0 },
  { name := "starting_chi_factor", value := .num 1, optional := true, enabled := false },
  { name := "f_min_change", value := .num (mkRat 1 10000), min := some (mkRat 1 1000000) },
  { name := "beta_tol", value := .num (mkRat 1 2), min := some (mkRat 1 10000) },
  { name := "prctile", value := .num 95, min := some 5, max := some 100 },
  { name := "coolEps_q", value := .bool true },
  { name := "coolEpsFact", value := .num (mkRat 6 5) },
  { name := "beta_search", value := .bool false },
  { name := "sens_wts_threshold", value := .num (mkRat 1 1000), min := some 0, max := some 1 },
  { name := "every_iteration_bool", value := .bool true },
  { name := "parallelized", value := .bool true },
  { name := "n_cpu", value := .num 1, min := some 1, optional := true, enabled := false, dependency := some "parallelized" },
  { name := "store_sensitivities", value := .str "ram" },
  { name := "max_chunk_size", value := .num 128, min := some 0, optional := true },
  { name := "chunk_by_rows", value := .bool true },
  { name := "out_group", value := .str "", optional := true, enabled := false },
  { name := "generate_sweep", value := .bool false }
  ]⟩

/-- The parameter entries of `src/unnamed/part_008 (Tipper Inversion ui.json)`, transcribed from the asset. -/
def tipper_inversion : UIFile :=
  ⟨"part_008", false, [
  { name := "topography_object", value := .str "" },
  { name := "topography", value := .str "", optional := true, enabled := false },
  { name := "data_object", value := .str "" },
  { name := "z_from_topo", value := .bool false },
  { name := "receivers_radar_drape", value := .str "", optional := true, enabled := false },
  { name := "receivers_offset_z", value := .num 0, optional := true, enabled := false },
  { name := "txz_real_channel", value := .str "", optional := true },
  { name := "txz_real_uncertainty", value := .str "", dependency := some "txz_real_channel" },
  { name := "txz_imag_channel", value := .str "", optional := true },
  { name := "txz_imag_uncertainty", value := .str "", dependency := some "txz_imag_channel" },
  { name := "tyz_real_channel", value := .str "", optional := true },
  { name := "tyz_real_uncertainty", value := .str "", dependency := some "tyz_real_channel" },
  { name := "tyz_imag_channel", value := .str "", optional := true },
  { name := "tyz_imag_uncertainty", value := .str "", dependency := some "tyz_imag_channel" },
  { name := "mesh", value := .str "" },
  { name := "background_conductivity", value := .num (mkRat 1 1000) },
  { name := "starting_model", value := .num (mkRat 1 1000) },
  { name := "reference_model", value := .num (mkRat 1 1000) },
  { name := "lower_bound", value := .num (mkRat 1 100000000), optional := true, enabled := false },
  { name := "upper_bound", value := .num 100, optional := true, enabled := false },
  { name := "chi_factor", value := .num 1, min := some (mkRat 1 10), max := some 20 },
  { name := "initial_beta_ratio", value := .num 100, min := some 0, optional := true },
  { name := "initial_beta", value := .num 1, min := some 0, optional := true, enabled := false, dependency := some "initial_beta_ratio", dependencyType := "disabled" },
  { name := "coolingRate", value := .num 4, min := some 1, max := some 10 },
  { name := "coolingFactor", value := .num 2, min := some (mkRat 11 10), max := some 100 },
  { name := "max_global_iterations", value := .num 50, min := some 1 },
  { name := "max_line_search_iterations", value := .num 20, min := some 1 },
  { name := "max_cg_iterations", value := .num 30, min := some 0 },
  { name := "tol_cg", value := .num (mkRat 1 10000), min := some 0 },
  { name := "alpha_s", value := .num 0, min := some 0 },
  { name := "length_scale_x", value := .num 1, min := some 0 },
  { name := "length_scale_y", value := .num 1, min := some 0 },
  { name := "length_scale_z", value := .num 1, min := some 0 },
  { name := "s_norm", value := .num 0, min := some 0, max := some 2 },
  { name := "x_norm", value := .num 2, min := some 0, max := some 2 },
  { name := "y_norm", value := .num 2, min := some 0, max := some 2 },
  { name := "z_norm", value := .num 2, min := some 0, max := some 2 },
  { name := "max_irls_iterations", value := .num 25, min := some 0 },
  { name := "starting_chi_factor", value := .num 1, optional := true, enabled := false },
  { name := "f_min_change", value := .num (mkRat 1 10000), min := some (mkRat 1 1000000) },
  { name := "beta_tol", value := .num (mkRat 1 2), min := some (mkRat 1 10000) },
  { name := "prctile", value := .num 95, min := some 5, max := some 100 },
  { name := "coolEps_q", value := .bool true },
  { name := "coolEpsFact", value := .num (mkRat 6 5) },
  { name := "beta_search", value := .bool false },
  { name := "gradient_type", value := .str "total" },
  { name := "sens_wts_threshold", value := .num (mkRat 1 1000), min := some 0, max := some 1 },
  { name := "every_iteration_bool", value := .bool true },
  { name := "parallelized", value := .bool true },
  { name := "n_cpu", value := .num 1, min := some 1, optional := true, enabled := false, dependency := some "parallelized" },
  { name := "tile_spatial", value := .num 1, min := some 1, max := some 1000 },
  { name := "store_sensitivities", value := .str "ram" },
  { name := "max_chunk_size", value := .num 128, min := some 0, optional := true },
  { name := "chunk_by_rows", value := .bool true },
  { name := "out_group", value := .str "", optional := true, enabled := false },
  { name := "generate_sweep", value := .bool false }
  ]⟩


/-! ## Modelled validators

The pydantic validator bodies are not part of the snapshot (only their
declarations in `src/uml/new_gravity_options.puml`); the definitions below
model them from the specification, as noted on each. -/

/-- `true` when a numeric field's default value violates one of its declared
`min`/`max` bounds.  A non-numeric value, or an absent bound, violates
nothing. -/
def violatesBounds (f : UIParam) : Bool :=
  match f.value with
  | .num v =>
      (match f.min with
       | some m => decide (v < m)
       | none => false) ||
      (match f.max with
       | some M => decide (M < v)
       | none => false)
  | _ => false

/-- Modelled from the spec: "numeric bounds (e.g., chi-factor in [0.1, 20],
Lp-norms in [0,2]) enforced at construction" and "supplying a value outside
`[min, max]` causes construction to fail, and the failure set includes that
field's name".  Collects the name of every bounded numeric field whose value
lies outside its declared bounds. -/
def boundsFailures (fields : List UIParam) : List String :=
  (fields.filter violatesBounds).map (·.name)

/-- A survey data-channel field: inversion schemas declare `*_channel`
data references, forward schemas declare `*_channel_bool` toggles (see the
bundled `*.ui.json` assets and the gravity classes in
`src/uml/new_gravity_options.puml`). -/
def isChannelField (f : UIParam) : Bool :=
  "_channel".data.isSuffixOf f.name.data || "_channel_bool".data.isSuffixOf f.name.data

/-- Whether a data channel is enabled: a `*_channel_bool` toggle is enabled
when its boolean value is `true`; a `*_channel` reference is enabled when its
`enabled` flag is set. -/
def channelEnabled (f : UIParam) : Bool :=
  match f.value with
  | .bool b => b
  | _ => f.enabled

/-- The failure message reported when no data channel is enabled. -/
def atLeastOneChannelMsg : String := "at least one channel required"

/-- Modelled from the spec: "at least one survey data channel must be enabled
for inversion (not forward) runs".  The rule applies to survey-type schemas,
i.e. files that declare data-channel fields; joint schemas take their data
from member simulation groups and declare no channel fields of their own. -/
def channelFailures (file : UIFile) : List String :=
  if file.forward_only then []
  else
    let chans := file.fields.filter isChannelField
    if chans.isEmpty then []
    else if chans.any channelEnabled then [] else [atLeastOneChannelMsg]

/-- An uncertainty field associated to a data channel (`*_uncertainty` in the
bundled assets). -/
def isUncertaintyField (f : UIParam) : Bool :=
  "_uncertainty".data.isSuffixOf f.name.data

/-- Modelled from the spec: "Invariant: uncertainty values must be
non-negative."  Collects the name of every uncertainty field holding a
negative constant. -/
def uncertaintyFailures (fields : List UIParam) : List String :=
  (fields.filter fun f =>
    isUncertaintyField f &&
      match f.value with
      | .num v => decide (v < 0)
      | _ => false).map (·.name)

/-- Modelled from the spec: construction of an options object from a
UI-description file "either succeeds and yields a fully validated, internally
consistent object, or fails with a validation error identifying the offending
field(s)", with the failure "reported as a structured error enumerating every
violated constraint".  The validators modelled here are the representative
rules the spec names for the default-loading path: numeric bounds, the
at-least-one-channel rule, and uncertainty non-negativity. -/
def validateOptions (file : UIFile) : List String :=
  boundsFailures file.fields ++ channelFailures file ++ uncertaintyFailures file.fields

/-- Modelled from the spec: two-phase build — populate values, then run the
validators, failing with the full failure set when any rule is violated. -/
def buildOptions (file : UIFile) : Except (List String) UIFile :=
  match validateOptions file with
  | [] => .ok file
  | errs => .error errs

/-- Construction from the file's defaults raises no validation error. -/
def constructionSucceeds (file : UIFile) : Bool :=
  (validateOptions file).isEmpty

/-- The field names declared by a UI-description file. -/
def fieldNames (file : UIFile) : List String :=
  file.fields.map (·.name)

/-- The enable/disable dependency graph of a file is closed: every declared
`dependency` key names a field of the same file. -/
def dependencyClosed (file : UIFile) : Bool :=
  file.fields.all fun f =>
    match f.dependency with
    | some d => (fieldNames file).contains d
    | none => true

/-- All bundled UI-description files of the snapshot. -/
def bundledUIFiles : List UIFile :=
  [direct_current_batch2d_forward, fem_forward, gravity_forward,
   induced_polarization_2d_inversion, induced_polarization_forward_2d,
   joint_surveys_inversion, magnetic_scalar_forward, magnetic_scalar_inversion,
   magnetic_vector_forward, joint_cross_gradient_inversion, tipper_inversion]

/-! ## CoreOptions field validators (modelled) -/

/-- The compute-related slice of `CoreOptions`
(`src/uml/new_gravity_options.puml`): the `parallelized` flag and the
optional `n_cpu` count. -/
structure ComputeConfig where
  parallelized : Bool
  n_cpu : Option Nat
deriving DecidableEq, Repr

/-- Modelled from the spec: the `maximize_cpu_if_none` field validator of
`CoreOptions` (declared in `src/uml/new_gravity_options.puml`; body not in
the snapshot) — "`n_cpu` defaults to the host's available core count when
unset and parallelization is enabled"; an explicitly supplied value is
kept. -/
def maximize_cpu_if_none (availableCpuCount : Nat) (c : ComputeConfig) :
    ComputeConfig :=
  match c.n_cpu, c.parallelized with
  | none, true => ⟨true, some availableCpuCount⟩
  | _, _ => c

/-- An octree mesh handle, reduced to the one attribute the validator
consults: the rotation transform it carries. -/
structure Octree where
  rotation : ℚ
deriving DecidableEq, Repr

/-- Modelled from the spec: the `mesh_cannot_be_rotated` field validator of
`CoreOptions` (declared in `src/uml/new_gravity_options.puml`; body not in
the snapshot) — "a mesh reference cannot carry a rotation transform;
rotation is disallowed by policy". -/
def mesh_cannot_be_rotated (value : Octree) : Except String Octree :=
  if value.rotation = 0 then .ok value else .error "Mesh cannot be rotated"

/-- Validation of the optional `mesh` field of `CoreOptions`: an absent mesh
passes, a present mesh runs `mesh_cannot_be_rotated`. -/
def validateMesh : Option Octree → Except String (Option Octree)
  | none => .ok none
  | some m => (mesh_cannot_be_rotated m).map some

/-! ## Active-cells options (modelled) -/

/-- `ActiveCellsOptions` of `src/uml/new_gravity_options.puml`: the mask is
either derived from a topography object (with an optional topography
value/offset) or supplied directly as a boolean cell mask.  The geoscience
object handles are abstracted to numeric identifiers. -/
structure ActiveCellsOptions where
  topography_object : Option Nat
  topography : Option ℚ
  active_cells : Option Nat
deriving DecidableEq, Repr

/-- Modelled from the spec and the class diagram: the `at_least_one` model
validator of `ActiveCellsOptions` (declared in
`src/uml/new_gravity_options.puml`; body not in the snapshot).  As the
declared name states, it requires at least one of the two mask sourcings —
a topography object to derive the mask from, or a directly supplied
`active_cells` mask — to be present. -/
def at_least_one (o : ActiveCellsOptions) : Bool :=
  o.topography_object.isSome || o.active_cells.isSome

/-- Construction of an active-cells options group: it succeeds exactly when
the `at_least_one` model validator passes. -/
def buildActiveCells (o : ActiveCellsOptions) :
    Except String ActiveCellsOptions :=
  if at_least_one o then .ok o
  else .error "Must provide either topography_object or active_cells"

/-! ## Channel uncertainties (modelled) -/

/-- The uncertainty attached to a data channel: a constant, or one value per
observation (`FloatData | float` in the class diagram). -/
inductive Uncertainty where
  | const (v : ℚ)
  | perObs (vs : List ℚ)
deriving DecidableEq, Repr

/-- The individual uncertainty values carried by an `Uncertainty`. -/
def Uncertainty.values : Uncertainty → List ℚ
  | .const v => [v]
  | .perObs vs => vs

/-- A data channel together with its associated uncertainty, as paired in the
inversion schemas (`gz_channel`/`gz_uncertainty`,
`tmi_channel`/`tmi_uncertainty`, ...). -/
structure ChannelUncertainty where
  channel : String
  uncertainty : Uncertainty
deriving DecidableEq, Repr

/-- Modelled from the spec: "Invariant: uncertainty values must be
non-negative."  Collects the channels carrying any negative uncertainty
value. -/
def negativeUncertaintyFailures (cs : List ChannelUncertainty) : List String :=
  (cs.filter fun c => c.uncertainty.values.any fun v => decide (v < 0)).map
    (·.channel)

/-- Construction of the channel/uncertainty block of an inversion options
object: fails with the full set of offending channels when any uncertainty
value is negative. -/
def buildUncertainties (cs : List ChannelUncertainty) :
    Except (List String) (List ChannelUncertainty) :=
  match negativeUncertaintyFailures cs with
  | [] => .ok cs
  | errs => .error errs

/-! ## UI-description serialization round trip (modelled) -/

/-- One field of an options schema: its name, the schema's own default value,
and whether the field is persisted to the UI-description format (transient
workspace handles are not). -/
structure SchemaField where
  name : String
  default : UIValue
  persistent : Bool
deriving DecidableEq, Repr

/-- Modelled from the spec: `BaseData.write_ui_json` (declared in
`src/uml/new_gravity_options.puml`; body not in the snapshot) — serializes a
validated options object to the UI-description format, writing the value of
every persistent field (fields explicitly marked non-persistent, e.g.
transient workspace handles, are excluded). -/
def write_ui_json (opts : List (SchemaField × UIValue)) :
    List (String × UIValue) :=
  (opts.filter fun p => p.1.persistent).map fun p => (p.1.name, p.2)

/-- Lookup of a key's value in a serialized UI-description file (first match
wins). -/
def lookupValue (n : String) : List (String × UIValue) → Option UIValue
  | [] => none
  | (k, v) :: rest => if k = n then some v else lookupValue n rest

/-- Modelled from the spec: `BaseData.build` (declared in
`src/uml/new_gravity_options.puml`; body not in the snapshot) — loads an
options object from a serialized UI-description file: each schema field takes
the file's value when present, "missing required fields fall back to the
schema's own defaults", "unknown fields in the file are ignored", and loading
is a pure parse. -/
def build (schema : List SchemaField) (file : List (String × UIValue)) :
    List (SchemaField × UIValue) :=
  schema.map fun f => (f, (lookupValue f.name file).getD f.default)

/-! ## Sweep generation (modelled) -/

/-- A concrete run configuration for the sweep generator: named numeric
fields with their values. -/
def SweepConfig : Type := List (String × ℚ)

instance : DecidableEq SweepConfig := by
  unfold SweepConfig
  infer_instance

/-- Override one named field of a configuration with a concrete value. -/
def setField (cfg : SweepConfig) (n : String) (v : ℚ) : SweepConfig :=
  cfg.map fun p => if p.1 = n then (n, v) else p

/-- Modelled from the spec: the parameter sweep generator (§4.4; the
`generate_sweep` flag of `CoreOptions` dispatches to it, its body is not in
the snapshot) — "given a base options object plus one or more fields marked
as ranges, enumerate the Cartesian product of concrete parameter sets and
emit one run configuration per combination", in declaration order of the
swept fields and ascending value order within each field. -/
def generate_sweep (base : SweepConfig) :
    List (String × List ℚ) → List SweepConfig
  | [] => [base]
  | (n, vs) :: rest =>
      (vs.insertionSort (· ≤ ·)).flatMap fun v =>
        generate_sweep (setField base n v) rest

/-! ## Claim theorems -/

/-- C3: For every bundled UI-description file, constructing the corresponding
options object from that file's default values alone, with no user overrides,
succeeds — no validation error is raised; the defaults are always
self-consistent. -/
theorem bundled_defaults_self_consistent :
    bundledUIFiles.all constructionSucceeds = true ∧
    bundledUIFiles.map buildOptions = bundledUIFiles.map Except.ok := by
  constructor
  · decide
  · decide

/-- C10: In every bundled UI-description file, the enable/disable dependency
graph is closed: every field declaring a `dependency` key names as its target
a field that exists in the same file, so every field's effective enabled
state is well-defined. -/
theorem dependency_graph_closed :
    bundledUIFiles.all dependencyClosed = true := by
  decide

/-- C4: When `n_cpu` is unset and parallelization is enabled, the
`maximize_cpu_if_none` validator sets `n_cpu` to the host's available core
count; an explicitly supplied `n_cpu` is kept. -/
theorem n_cpu_defaults_to_available_cores (host : Nat) (c : ComputeConfig) :
    (c.parallelized = true → c.n_cpu = none →
        (maximize_cpu_if_none host c).n_cpu = some host) ∧
    (∀ k, c.n_cpu = some k →
        (maximize_cpu_if_none host c).n_cpu = some k) := by
  obtain ⟨p, n⟩ := c
  constructor
  · rintro rfl rfl
    rfl
  · rintro k rfl
    cases p <;> rfl

/-- C4 witness: on a host with 8 available cores, an unset `n_cpu` with
parallelization enabled becomes 8, and a supplied `n_cpu` of 4 is kept. -/
theorem n_cpu_defaults_to_available_cores_check :
    (maximize_cpu_if_none 8 ⟨true, none⟩).n_cpu = some 8 ∧
    (maximize_cpu_if_none 8 ⟨true, some 4⟩).n_cpu = some 4 :=
  ⟨(n_cpu_defaults_to_available_cores 8 ⟨true, none⟩).1 rfl rfl,
   (n_cpu_defaults_to_available_cores 8 ⟨true, some 4⟩).2 4 rfl⟩

/-- C5: supplying a mesh that carries a rotation transform fails validation,
and a successfully validated mesh never carries a rotation. -/
theorem rotated_mesh_rejected (m : Octree) (om : Option Octree) :
    (m.rotation ≠ 0 →
        validateMesh (some m) = .error "Mesh cannot be rotated") ∧
    (validateMesh (some m) = .ok om → m.rotation = 0) := by
  constructor
  · intro h
    show (mesh_cannot_be_rotated m).map some = Except.error "Mesh cannot be rotated"
    unfold mesh_cannot_be_rotated
    rw [if_neg h]
    rfl
  · intro h
    by_cases hr : m.rotation = 0
    · exact hr
    · simp [validateMesh, mesh_cannot_be_rotated, hr, Except.map] at h

/-- C5 witness: a mesh carrying a rotation of 1 is rejected. -/
theorem rotated_mesh_rejected_check :
    validateMesh (some ⟨1⟩) = .error "Mesh cannot be rotated" :=
  (rotated_mesh_rejected ⟨1⟩ none).1 (by norm_num)

/-- C6 counterexample: an active-cells group supplying BOTH sourcings — a
topography object and a direct `active_cells` mask — is accepted by the
`at_least_one` model validator, so "never both" fails. -/
theorem active_cells_both_sourcings_accepted :
    buildActiveCells ⟨some 1, none, some 2⟩ = .ok ⟨some 1, none, some 2⟩ ∧
    (⟨some 1, none, some 2⟩ : ActiveCellsOptions).topography_object.isSome
        = true ∧
    (⟨some 1, none, some 2⟩ : ActiveCellsOptions).active_cells.isSome
        = true := by
  decide

/-- C6 (amended): every successfully constructed active-cells group has at
least one of the two sourcings — topography-derived or directly supplied —
and a group with neither fails validation; both may be present at once. -/
theorem active_cells_at_least_one_sourcing (o o' : ActiveCellsOptions) :
    (buildActiveCells o = .ok o' →
        o.topography_object.isSome = true ∨ o.active_cells.isSome = true) ∧
    (o.topography_object = none → o.active_cells = none →
        buildActiveCells o =
          .error "Must provide either topography_object or active_cells") := by
  constructor
  · intro h
    by_cases hb : at_least_one o = true
    · simpa [at_least_one, Bool.or_eq_true] using hb
    · simp [buildActiveCells, hb] at h
  · intro h1 h2
    simp [buildActiveCells, at_least_one, h1, h2]

/-- C6 witness: a group with neither sourcing fails validation. -/
theorem active_cells_at_least_one_sourcing_check :
    buildActiveCells ⟨none, none, none⟩ =
      .error "Must provide either topography_object or active_cells" :=
  (active_cells_at_least_one_sourcing ⟨none, none, none⟩
    ⟨none, none, none⟩).2 rfl rfl

/-- C7: on a successfully constructed channel/uncertainty block every
uncertainty value (constant or per-observation) is non-negative, and a
negative uncertainty makes construction fail with the offending channel in
the failure set. -/
theorem uncertainties_nonnegative (cs cs' : List ChannelUncertainty)
    (c : ChannelUncertainty) :
    (buildUncertainties cs = .ok cs' →
        ∀ d ∈ cs, ∀ v ∈ d.uncertainty.values, 0 ≤ v) ∧
    (c ∈ cs → (∃ v ∈ c.uncertainty.values, v < 0) →
        buildUncertainties cs = .error (negativeUncertaintyFailures cs) ∧
        c.channel ∈ negativeUncertaintyFailures cs) := by
  constructor
  · intro h d hd v hv
    cases hfail : negativeUncertaintyFailures cs with
    | nil =>
        have hfilter := List.map_eq_nil_iff.mp hfail
        have hpred := List.filter_eq_nil_iff.mp hfilter d hd
        simp only [List.any_eq_true, decide_eq_true_eq, not_exists,
          not_and] at hpred
        exact not_lt.mp (hpred v hv)
    | cons a as =>
        rw [buildUncertainties, hfail] at h
        exact absurd h (by simp)
  · intro hc ⟨v, hv, hneg⟩
    have hpred : (c.uncertainty.values.any fun v => decide (v < 0)) = true := by
      simp only [List.any_eq_true, decide_eq_true_eq]
      exact ⟨v, hv, hneg⟩
    have hmem : c.channel ∈ negativeUncertaintyFailures cs :=
      List.mem_map_of_mem _ (List.mem_filter.mpr ⟨hc, hpred⟩)
    refine ⟨?_, hmem⟩
    cases hfail : negativeUncertaintyFailures cs with
    | nil => rw [hfail] at hmem; exact absurd hmem (by simp)
    | cons a as => rw [buildUncertainties, hfail]

/-- C7 witness: a channel whose constant uncertainty is −1 makes construction
fail, with that channel in the failure set. -/
theorem uncertainties_nonnegative_check :
    buildUncertainties [⟨"tmi_uncertainty", .const (-1)⟩] =
      .error (negativeUncertaintyFailures [⟨"tmi_uncertainty", .const (-1)⟩]) ∧
    "tmi_uncertainty" ∈
      negativeUncertaintyFailures [⟨"tmi_uncertainty", .const (-1)⟩] :=
  (uncertainties_nonnegative [⟨"tmi_uncertainty", .const (-1)⟩] []
    ⟨"tmi_uncertainty", .const (-1)⟩).2 (by decide) ⟨-1, by decide, by decide⟩

/-- C2: for every survey-type schema (a non-forward file declaring data
channels), disabling every channel produces the "at least one channel
required" validation failure, and enabling at least one channel removes it. -/
theorem inversion_requires_enabled_channel (file : UIFile)
    (hfwd : file.forward_only = false)
    (hch : file.fields.filter isChannelField ≠ []) :
    ((file.fields.filter isChannelField).any channelEnabled = false →
        channelFailures file = [atLeastOneChannelMsg] ∧
        atLeastOneChannelMsg ∈ validateOptions file) ∧
    ((file.fields.filter isChannelField).any channelEnabled = true →
        channelFailures file = []) := by
  have hempty : (file.fields.filter isChannelField).isEmpty = false := by
    cases hfe : file.fields.filter isChannelField with
    | nil => exact absurd hfe hch
    | cons a as => rfl
  constructor
  · intro hnone
    have hcf : channelFailures file = [atLeastOneChannelMsg] := by
      simp [channelFailures, hfwd, hempty, hnone]
    refine ⟨hcf, ?_⟩
    unfold validateOptions
    rw [hcf]
    exact List.mem_append_left _ (List.mem_append_right _ (by simp))
  · intro hsome
    simp [channelFailures, hfwd, hempty, hsome]

/-- A one-channel inversion file whose only data channel is disabled, used to
exercise the at-least-one-channel rule. -/
def disabledChannelFile : UIFile :=
  ⟨"all_channels_disabled", false,
    [{ name := "tmi_channel", value := .str "", optional := true,
       enabled := false }]⟩

/-- C2 witness: with the only channel disabled the failure appears, and on
the bundled magnetic scalar inversion defaults (TMI channel enabled) it does
not. -/
theorem inversion_requires_enabled_channel_check :
    (channelFailures disabledChannelFile = [atLeastOneChannelMsg] ∧
      atLeastOneChannelMsg ∈ validateOptions disabledChannelFile) ∧
    channelFailures magnetic_scalar_inversion = [] :=
  ⟨(inversion_requires_enabled_channel disabledChannelFile rfl
      (by decide)).1 (by decide),
   (inversion_requires_enabled_channel magnetic_scalar_inversion rfl
      (by decide)).2 (by decide)⟩

/-- C1: a numeric field declaring bounds whose value lies outside
`[min, max]` makes construction fail with that field's name in the failure
set, and any in-range value is accepted for that field. -/
theorem bounded_numeric_field_enforced (file : UIFile) (f : UIParam)
    (v m M : ℚ) (hmem : f ∈ file.fields) (hv : f.value = .num v)
    (hm : f.min = some m) (hM : f.max = some M) :
    ((v < m ∨ M < v) →
        buildOptions file = .error (validateOptions file) ∧
        f.name ∈ validateOptions file) ∧
    (m ≤ v → v ≤ M → violatesBounds f = false) := by
  constructor
  · intro hout
    have hviol : violatesBounds f = true := by
      unfold violatesBounds
      rw [hv, hm, hM]
      rcases hout with h | h <;> simp [h]
    have hfail : f.name ∈ boundsFailures file.fields :=
      List.mem_map_of_mem _ (List.mem_filter.mpr ⟨hmem, hviol⟩)
    have hval : f.name ∈ validateOptions file :=
      List.mem_append_left _ (List.mem_append_left _ hfail)
    refine ⟨?_, hval⟩
    have hne : validateOptions file ≠ [] := by
      intro h0
      rw [h0] at hval
      exact absurd hval (by simp)
    cases hv0 : validateOptions file with
    | nil => exact absurd hv0 hne
    | cons a as =>
        unfold buildOptions
        rw [hv0]
  · intro h1 h2
    unfold violatesBounds
    rw [hv, hm, hM]
    simp [not_lt.mpr h1, not_lt.mpr h2]

/-- The `chi_factor` entry of `magnetic_scalar_inversion.ui.json` with its
bounds `[0.1, 20]` but an out-of-range value `25`. -/
def chiFactorOutOfRange : UIParam :=
  { name := "chi_factor", value := .num 25, min := some (mkRat 1 10),
    max := some 20 }

/-- A file holding only the out-of-range `chi_factor` entry. -/
def chiFactorOutFile : UIFile :=
  ⟨"chi_factor_out_of_range", false, [chiFactorOutOfRange]⟩

/-- C1 witness: `chi_factor = 25` (bounds `[0.1, 20]`) makes construction
fail with `chi_factor` in the failure set, while the bundled in-range default
`chi_factor = 1` of `magnetic_scalar_inversion.ui.json` is accepted. -/
theorem bounded_numeric_field_enforced_check :
    (buildOptions chiFactorOutFile = .error (validateOptions chiFactorOutFile) ∧
      "chi_factor" ∈ validateOptions chiFactorOutFile) ∧
    violatesBounds
      { name := "chi_factor", value := .num 1, min := some (mkRat 1 10),
        max := some 20 } = false :=
  ⟨(bounded_numeric_field_enforced chiFactorOutFile chiFactorOutOfRange
      25 (mkRat 1 10) 20 (by decide) rfl rfl rfl).1 (Or.inr (by decide)),
   (bounded_numeric_field_enforced magnetic_scalar_inversion
      { name := "chi_factor", value := .num 1, min := some (mkRat 1 10),
        max := some 20 }
      1 (mkRat 1 10) 20 (by decide) rfl rfl rfl).2 (by decide) (by decide)⟩

/-! ### Round-trip lemmas -/

theorem lookupValue_cons_ne (n k : String) (v : UIValue)
    (file : List (String × UIValue)) (h : k ≠ n) :
    lookupValue n ((k, v) :: file) = lookupValue n file := by
  simp [lookupValue, h]

theorem lookupValue_not_mem (n : String) (file : List (String × UIValue))
    (h : n ∉ file.map Prod.fst) : lookupValue n file = none := by
  induction file with
  | nil => rfl
  | cons p rest ih =>
      obtain ⟨k, v⟩ := p
      simp only [List.map_cons, List.mem_cons, not_or] at h
      rw [lookupValue_cons_ne n k v rest fun he => h.1 he.symm]
      exact ih h.2

theorem lookupValue_write_not_mem (n : String)
    (opts : List (SchemaField × UIValue))
    (h : n ∉ opts.map fun p => p.1.name) :
    lookupValue n (write_ui_json opts) = none := by
  apply lookupValue_not_mem
  intro hmem
  simp only [write_ui_json, List.map_map, List.mem_map,
    Function.comp] at hmem
  obtain ⟨p, hp, hname⟩ := hmem
  exact h (List.mem_map.mpr ⟨p, List.mem_of_mem_filter hp, hname⟩)

/-- The full characterization of reloading a serialized options object:
persistent fields keep their validated values, non-persistent ones come back
as the schema's defaults. -/
theorem build_write_ui_json (opts : List (SchemaField × UIValue))
    (hnd : (opts.map fun p => p.1.name).Nodup) :
    build (opts.map Prod.fst) (write_ui_json opts) =
      opts.map fun p =>
        if p.1.persistent then p else (p.1, p.1.default) := by
  induction opts with
  | nil => rfl
  | cons p rest ih =>
      obtain ⟨f, v⟩ := p
      simp only [List.map_cons, List.nodup_cons] at hnd
      obtain ⟨hnotin, hrest⟩ := hnd
      have htail : ∀ w : List (String × UIValue),
          build (rest.map Prod.fst) ((f.name, v) :: w) =
            build (rest.map Prod.fst) w := by
        intro w
        unfold build
        refine List.map_congr_left fun g hg => ?_
        have hgname : g.name ∈ rest.map fun p => p.1.name := by
          obtain ⟨q, hq, rfl⟩ := List.mem_map.mp hg
          exact List.mem_map.mpr ⟨q, hq, rfl⟩
        rw [lookupValue_cons_ne _ _ _ _ fun he => hnotin (by rw [he]; exact hgname)]
      by_cases hp : f.persistent
      · have hw : write_ui_json ((f, v) :: rest) =
            (f.name, v) :: write_ui_json rest := by
          simp [write_ui_json, hp]
        rw [List.map_cons, hw]
        show (f, (lookupValue f.name ((f.name, v) :: write_ui_json rest)).getD
            f.default) :: build (rest.map Prod.fst)
              ((f.name, v) :: write_ui_json rest) = _
        rw [htail, ih hrest]
        simp [lookupValue, hp]
      · have hw : write_ui_json ((f, v) :: rest) = write_ui_json rest := by
          simp [write_ui_json, hp]
        rw [List.map_cons, hw]
        show (f, (lookupValue f.name (write_ui_json rest)).getD f.default) ::
            build (rest.map Prod.fst) (write_ui_json rest) = _
        rw [lookupValue_write_not_mem f.name rest hnotin, ih hrest]
        simp [hp]

/-- C8: serializing a validated options object to the UI-description format
and reloading it yields an object whose validated field values agree with the
original's on every persistent field (non-persistent fields, e.g. transient
workspace handles, come back as schema defaults), and the serialize/reload
loop is idempotent — reloading a reloaded object changes nothing.  Loading is
a pure parse (a function of the file contents alone). -/
theorem ui_json_round_trip (opts : List (SchemaField × UIValue))
    (hnd : (opts.map fun p => p.1.name).Nodup) :
    (∀ f v, (f, v) ∈ opts → f.persistent = true →
        (f, v) ∈ build (opts.map Prod.fst) (write_ui_json opts)) ∧
    build (opts.map Prod.fst)
        (write_ui_json (build (opts.map Prod.fst) (write_ui_json opts))) =
      build (opts.map Prod.fst) (write_ui_json opts) := by
  have hmain := build_write_ui_json opts hnd
  constructor
  · intro f v hmem hp
    rw [hmain]
    have : (if f.persistent then (f, v) else (f, f.default)) = (f, v) := by
      rw [hp]
      rfl
    exact this ▸ List.mem_map_of_mem
      (fun p => if p.1.persistent then p else (p.1, p.1.default)) hmem
  · have hfst : ((opts.map fun p =>
        if p.1.persistent then p else (p.1, p.1.default)).map Prod.fst) =
          opts.map Prod.fst := by
      rw [List.map_map]
      refine List.map_congr_left fun p _ => ?_
      by_cases hp : p.1.persistent <;> simp [Function.comp, hp]
    have hnames : ((opts.map fun p =>
        if p.1.persistent then p else (p.1, p.1.default)).map
          fun p => p.1.name) = opts.map fun p => p.1.name := by
      rw [List.map_map]
      refine List.map_congr_left fun p _ => ?_
      by_cases hp : p.1.persistent <;> simp [Function.comp, hp]
    have h2 := build_write_ui_json
      (opts.map fun p => if p.1.persistent then p else (p.1, p.1.default))
      (by rw [hnames]; exact hnd)
    rw [hmain, ← hfst, h2, List.map_map]
    refine List.map_congr_left fun p _ => ?_
    by_cases hp : p.1.persistent <;> simp [Function.comp, hp]

/-- A two-field schema instance: a persistent `chi_factor` holding 2 and a
non-persistent workspace handle. -/
def roundTripExample : List (SchemaField × UIValue) :=
  [(⟨"chi_factor", .num 1, true⟩, .num 2),
   (⟨"geoh5", .str "", false⟩, .str "workspace-handle")]

/-- C8 witness: on a concrete two-field object, the persistent field survives
the round trip with its validated value, and reloading is stable. -/
theorem ui_json_round_trip_check :
    ((⟨"chi_factor", .num 1, true⟩ : SchemaField), (.num 2 : UIValue)) ∈
      build (roundTripExample.map Prod.fst) (write_ui_json roundTripExample) ∧
    build (roundTripExample.map Prod.fst)
        (write_ui_json (build (roundTripExample.map Prod.fst)
          (write_ui_json roundTripExample))) =
      build (roundTripExample.map Prod.fst)
        (write_ui_json roundTripExample) :=
  ⟨(ui_json_round_trip roundTripExample (by decide)).1
      ⟨"chi_factor", .num 1, true⟩ (.num 2) (by decide) rfl,
   (ui_json_round_trip roundTripExample (by decide)).2⟩

/-! ### Sweep-generation lemmas -/

theorem sum_map_const {α : Type} (l : List α) (c : Nat) :
    (l.map fun _ => c).sum = l.length * c := by
  induction l with
  | nil => simp
  | cons a t ih =>
      simp only [List.map_cons, List.sum_cons, List.length_cons, ih]
      ring

theorem flatMap_singleton_map {α β : Type} (l : List α) (f : α → β) :
    (l.flatMap fun a => [f a]) = l.map f := by
  induction l with
  | nil => rfl
  | cons a t ih => simp [List.flatMap_cons, ih]

/-- The output count of the sweep generator is the product of the range
cardinalities, independently of the base configuration. -/
theorem length_generate_sweep (ranges : List (String × List ℚ)) :
    ∀ base : SweepConfig, (generate_sweep base ranges).length =
      (ranges.map fun r => r.2.length).prod := by
  induction ranges with
  | nil => intro base; rfl
  | cons r rest ih =>
      intro base
      obtain ⟨n, vs⟩ := r
      show ((vs.insertionSort (· ≤ ·)).flatMap fun v =>
        generate_sweep (setField base n v) rest).length = _
      rw [List.length_flatMap]
      simp only [Function.comp_def]
      have hconst : ((vs.insertionSort (· ≤ ·)).map fun v =>
          (generate_sweep (setField base n v) rest).length) =
          (vs.insertionSort (· ≤ ·)).map fun _ =>
            (rest.map fun r => r.2.length).prod :=
        List.map_congr_left fun v _ => ih (setField base n v)
      rw [hconst, sum_map_const, List.length_insertionSort]
      simp [List.map_cons, List.prod_cons]

/-- C9: sweep generation enumerates the Cartesian product deterministically —
zero ranges yield exactly the base configuration unchanged, the output count
is the product of the range cardinalities, generating twice from the same
inputs yields identical order-matching lists, and a single swept field is
enumerated in ascending value order, each output being the base with just
that field overridden. -/
theorem sweep_generation_contract (base : SweepConfig)
    (ranges : List (String × List ℚ)) (n : String) (vs : List ℚ) :
    generate_sweep base [] = [base] ∧
    (generate_sweep base ranges).length =
      (ranges.map fun r => r.2.length).prod ∧
    generate_sweep base ranges = generate_sweep base ranges ∧
    generate_sweep base [(n, vs)] =
      ((vs.insertionSort (· ≤ ·)).map fun v => setField base n v) ∧
    (vs.insertionSort (· ≤ ·)).Sorted (· ≤ ·) := by
  refine ⟨rfl, length_generate_sweep ranges base, rfl, ?_,
    List.sorted_insertionSort (· ≤ ·) vs⟩
  show ((vs.insertionSort (· ≤ ·)).flatMap fun v =>
    generate_sweep (setField base n v) []) = _
  exact flatMap_singleton_map _ _

end SimpegDrivers
